import Mathlib

/-!
Verification of the internal-facing enterprise web-application template.

This file shallowly embeds the security-relevant parts of the repository:

* `packages/auth/src/utils/token-encryption.ts` — the AES-256-GCM token
  encryption utility (`encryptToken` / `decryptToken`).  Strings of bytes are
  modelled as `List Nat` (each entry is one byte, `< 256`); JavaScript strings
  holding plaintext or keys are modelled by their UTF-8 byte sequences.  The
  external `node:crypto` primitives (SHA-256, the AES-256-GCM keystream and the
  GHASH authentication tag) are abstracted into a `CryptoPrims` structure whose
  fields record exactly the interface the repository code relies on; everything
  the repository itself does (key derivation call, IV/tag/ciphertext packing,
  base64 encoding, subarray unpacking, tag verification) is translated
  faithfully from the TypeScript.
* `apps/api/src/app.ts` — the middleware pipeline built by `createApp`,
  including the registration order of the `/api/v1/public` service-auth routes
  relative to the session and CSRF middleware, and the session-secret
  resolution logic.
* `apps/api/src/middleware/service-auth.middleware.ts` — the Bearer-token
  service-auth decision procedure (implementation not present in the sources;
  modelled from the spec where noted).
* the mock-driver user list and the `AUTH_DRIVER` configuration schema.
-/

/-! ## Base64 codec

Models Node's `Buffer.prototype.toString('base64')` (standard alphabet with
`=` padding) and `Buffer.from(s, 'base64')`.  Node's decoder is lenient: it
skips characters outside the base64 alphabet (including `=` padding) and keeps
only the whole bytes formed by the concatenated 6-bit groups, discarding any
trailing bits that do not fill a byte.  That is exactly what `decodeB64` does.
-/

/-- The standard base64 alphabet, as a list of characters indexed 0–63. -/
def b64Alphabet : List Char :=
  ['A', 'B', 'C', 'D', 'E', 'F', 'G', 'H', 'I', 'J', 'K', 'L', 'M',
   'N', 'O', 'P', 'Q', 'R', 'S', 'T', 'U', 'V', 'W', 'X', 'Y', 'Z',
   'a', 'b', 'c', 'd', 'e', 'f', 'g', 'h', 'i', 'j', 'k', 'l', 'm',
   'n', 'o', 'p', 'q', 'r', 's', 't', 'u', 'v', 'w', 'x', 'y', 'z',
   '0', '1', '2', '3', '4', '5', '6', '7', '8', '9', '+', '/']

/-- Character for a 6-bit value. -/
def sixToChar (n : Nat) : Char := b64Alphabet.getD n 'A'

/-- 6-bit value of an alphabet character; `none` for any other character
(Node's lenient decoder skips those, `=` padding included). -/
def charToSixOpt (c : Char) : Option Nat :=
  if c ∈ b64Alphabet then some (b64Alphabet.indexOf c) else none

/-- Bytes to 6-bit groups (big-endian bit order within each 3-byte block). -/
def toSextets : List Nat → List Nat
  | a :: b :: c :: rest =>
      (a / 4) :: ((a % 4) * 16 + b / 16) :: ((b % 16) * 4 + c / 64) ::
        (c % 64) :: toSextets rest
  | [a, b] => [a / 4, (a % 4) * 16 + b / 16, (b % 16) * 4]
  | [a] => [a / 4, (a % 4) * 16]
  | [] => []

/-- 6-bit groups back to bytes, discarding trailing bits that do not fill a
whole byte (a lone final sextet contributes no byte; two contribute one;
three contribute two). -/
def fromSextets : List Nat → List Nat
  | w :: x :: y :: z :: rest =>
      (w * 4 + x / 16) :: ((x % 16) * 16 + y / 4) :: ((y % 4) * 64 + z) ::
        fromSextets rest
  | [w, x, y] => [w * 4 + x / 16, (x % 16) * 16 + y / 4]
  | [w, x] => [w * 4 + x / 16]
  | _ => []

/-- Padding characters appended by the encoder. -/
def padChars (bs : List Nat) : List Char :=
  match bs.length % 3 with
  | 1 => ['=', '=']
  | 2 => ['=']
  | _ => []

/-- `Buffer.prototype.toString('base64')`. -/
def encodeB64 (bs : List Nat) : String :=
  String.mk ((toSextets bs).map sixToChar ++ padChars bs)

/-- `Buffer.from(s, 'base64')` (lenient, see section comment). -/
def decodeB64 (s : String) : List Nat :=
  fromSextets (s.data.filterMap charToSixOpt)

/-! ### Base64 round-trip -/

theorem charToSixOpt_sixToChar : ∀ n < 64, charToSixOpt (sixToChar n) = some n := by
  decide

theorem toSextets_lt : ∀ bs : List Nat, (∀ b ∈ bs, b < 256) →
    ∀ s ∈ toSextets bs, s < 64
  | a :: b :: c :: rest, h => by
    have ha : a < 256 := h a (by simp)
    have hb : b < 256 := h b (by simp)
    have hc : c < 256 := h c (by simp)
    have ih := toSextets_lt rest (fun x hx => h x (by simp [hx]))
    intro s hs
    simp only [toSextets, List.mem_cons] at hs
    rcases hs with h1 | h1 | h1 | h1 | h1
    · omega
    · omega
    · omega
    · omega
    · exact ih s h1
  | [a, b], h => by
    have ha : a < 256 := h a (by simp)
    have hb : b < 256 := h b (by simp)
    intro s hs
    simp only [toSextets, List.mem_cons] at hs
    rcases hs with h1 | h1 | h1 | h1 <;> first | omega | simp at h1
  | [a], h => by
    have ha : a < 256 := h a (by simp)
    intro s hs
    simp only [toSextets] at hs
    rcases List.mem_pair.mp hs with h1 | h1 <;> omega
  | [], _ => by intro s hs; simp [toSextets] at hs

theorem fromSextets_toSextets : ∀ bs : List Nat, (∀ b ∈ bs, b < 256) →
    fromSextets (toSextets bs) = bs
  | a :: b :: c :: rest, h => by
    have ha : a < 256 := h a (by simp)
    have hb : b < 256 := h b (by simp)
    have hc : c < 256 := h c (by simp)
    have ih := fromSextets_toSextets rest (fun x hx => h x (by simp [hx]))
    simp only [toSextets, fromSextets, ih, List.cons.injEq, and_true]
    refine ⟨?_, ?_, ?_⟩ <;> omega
  | [a, b], h => by
    have ha : a < 256 := h a (by simp)
    have hb : b < 256 := h b (by simp)
    simp only [toSextets, fromSextets, List.cons.injEq, and_true]
    constructor <;> omega
  | [a], h => by
    have ha : a < 256 := h a (by simp)
    simp only [toSextets, fromSextets, List.cons.injEq, and_true]
    omega
  | [], _ => rfl

theorem filterMap_map_sixToChar (xs : List Nat) (h : ∀ x ∈ xs, x < 64) :
    (xs.map sixToChar).filterMap charToSixOpt = xs := by
  induction xs with
  | nil => rfl
  | cons a as ih =>
    have ha : a < 64 := h a (by simp)
    have := charToSixOpt_sixToChar a ha
    simp only [List.map_cons, List.filterMap_cons, this,
      ih (fun x hx => h x (by simp [hx]))]

theorem filterMap_padChars (bs : List Nat) :
    (padChars bs).filterMap charToSixOpt = [] := by
  unfold padChars
  split <;> decide

/-- Decoding inverts encoding on genuine byte lists. -/
theorem decodeB64_encodeB64 (bs : List Nat) (h : ∀ b ∈ bs, b < 256) :
    decodeB64 (encodeB64 bs) = bs := by
  unfold decodeB64 encodeB64
  simp only [List.filterMap_append,
    filterMap_map_sixToChar (toSextets bs) (toSextets_lt bs h),
    filterMap_padChars, List.append_nil]
  exact fromSextets_toSextets bs h

/-! ## Token encryption utility

Embedding of `packages/auth/src/utils/token-encryption.ts`.  The constants
`IV_LENGTH = 12` and `TAG_LENGTH = 16` and all packing logic come from the
source.  The `node:crypto` AES-256-GCM/SHA-256 primitives are external to the
repository; they are abstracted as a `CryptoPrims` structure recording the
interface guarantees the source relies on: `sha256` returns a 32-byte (256-bit)
digest (`createHash('sha256').digest()`), GCM encryption of `n` plaintext
bytes XORs them with an `n`-byte keystream determined by the key and IV
(`cipher.update`/`final`), and `cipher.getAuthTag()` returns a 16-byte tag
determined by the key, IV and ciphertext.  All fields are deterministic
functions, as the real primitives are.
-/

def IV_LENGTH : Nat := 12

def TAG_LENGTH : Nat := 16

/-- Interface of the external `node:crypto` primitives used by
`token-encryption.ts`. -/
structure CryptoPrims where
  sha256 : List Nat → List Nat
  sha256_len : ∀ k, (sha256 k).length = 32
  keystream : List Nat → List Nat → Nat → List Nat
  keystream_len : ∀ k iv n, (keystream k iv n).length = n
  keystream_lt : ∀ k iv n, ∀ b ∈ keystream k iv n, b < 256
  ghashTag : List Nat → List Nat → List Nat → List Nat
  ghashTag_len : ∀ k iv ct, (ghashTag k iv ct).length = TAG_LENGTH
  ghashTag_lt : ∀ k iv ct, ∀ b ∈ ghashTag k iv ct, b < 256

/-- Byte-wise XOR (the action of a stream cipher). -/
def xorBytes (xs ks : List Nat) : List Nat := List.zipWith (· ^^^ ·) xs ks

/-- `deriveKey` from the source: a 256-bit key via SHA-256 of the key string. -/
def deriveKey (C : CryptoPrims) (key : List Nat) : List Nat := C.sha256 key

/-- `encryptToken(plaintext, key)` from the source.  The fresh random IV
produced by `crypto.randomBytes(IV_LENGTH)` is passed in explicitly; every
value that call can produce is a list of 12 bytes `< 256`. -/
def encryptToken (C : CryptoPrims) (plaintext key iv : List Nat) : String :=
  let keyBuffer := deriveKey C key
  let encrypted := xorBytes plaintext (C.keystream keyBuffer iv plaintext.length)
  let tag := C.ghashTag keyBuffer iv encrypted
  encodeB64 (iv ++ tag ++ encrypted)

/-- Failure cases of `decryptToken`.  The source has no catch block: errors
raised by the `node:crypto` layer propagate to the caller. -/
inductive DecryptionError where
  /-- `createDecipheriv` rejects a zero-length GCM IV. -/
  | invalidIV : DecryptionError
  /-- `setAuthTag` (without an `authTagLength` option) accepts only GCM tags
  of 128, 120, 112, 104, 96, 64 or 32 bits. -/
  | invalidTagLength : DecryptionError
  /-- `final()` fails when the recomputed tag does not match the stored tag
  (compared on the stored tag's length, per OpenSSL GCM). -/
  | authFailed : DecryptionError
deriving DecidableEq

/-- Tag lengths (in bytes) accepted by Node's `setAuthTag` for GCM when no
`authTagLength` option was given: 128, 120, 112, 104, 96, 64 or 32 bits. -/
def allowedTagLengths : List Nat := [16, 15, 14, 13, 12, 8, 4]

/-- `decryptToken(encoded, key)` from the source: base64-decode, split into
IV (bytes 0–11), auth tag (bytes 12–27, via `subarray`, so truncated when the
input is short) and ciphertext (bytes 28…), then verify the tag and decrypt.
The external behaviour modelled: `createDecipheriv` throws on an empty GCM IV,
`setAuthTag` throws unless the tag length is in `allowedTagLengths`, and
`final()` throws unless the recomputed tag agrees with the stored tag on the
stored tag's length. -/
def decryptToken (C : CryptoPrims) (encoded : String) (key : List Nat) :
    Except DecryptionError (List Nat) :=
  let keyBuffer := deriveKey C key
  let data := decodeB64 encoded
  let iv := data.take IV_LENGTH
  let tag := (data.drop IV_LENGTH).take TAG_LENGTH
  let ciphertext := data.drop (IV_LENGTH + TAG_LENGTH)
  if iv.length = 0 then .error .invalidIV
  else if tag.length ∈ allowedTagLengths then
    if (C.ghashTag keyBuffer iv ciphertext).take tag.length = tag then
      .ok (xorBytes ciphertext (C.keystream keyBuffer iv ciphertext.length))
    else .error .authFailed
  else .error .invalidTagLength

/-! ### Helper lemmas -/

theorem xorBytes_length (xs ks : List Nat) :
    (xorBytes xs ks).length = min xs.length ks.length := by
  simp [xorBytes]

theorem xor_lt_256 (x y : Nat) (hx : x < 256) (hy : y < 256) :
    x ^^^ y < 256 := by
  have h := @Nat.xor_lt_two_pow x y 8 (by omega) (by omega)
  omega

theorem xorBytes_lt : ∀ xs ks : List Nat, (∀ b ∈ xs, b < 256) →
    (∀ b ∈ ks, b < 256) → ∀ b ∈ xorBytes xs ks, b < 256
  | [], _, _, _ => by simp [xorBytes]
  | _ :: _, [], _, _ => by simp [xorBytes]
  | x :: xs, k :: ks, hx, hk => by
    intro b hb
    simp only [xorBytes, List.zipWith_cons_cons, List.mem_cons] at hb
    rcases hb with rfl | hb
    · exact xor_lt_256 x k (hx x (by simp)) (hk k (by simp))
    · exact xorBytes_lt xs ks (fun y hy => hx y (by simp [hy]))
        (fun y hy => hk y (by simp [hy])) b hb

theorem xorBytes_cancel : ∀ (xs ks : List Nat), xs.length ≤ ks.length →
    xorBytes (xorBytes xs ks) ks = xs
  | [], _, _ => by simp [xorBytes]
  | x :: xs, k :: ks, h => by
    simp only [xorBytes, List.zipWith_cons_cons, List.cons.injEq]
    exact ⟨Nat.xor_cancel_right k x, xorBytes_cancel xs ks (by simpa using h)⟩


/-- Decrypting a base64-packed `IV ++ tag ++ ciphertext` payload reduces to
the tag comparison performed by `final()`. -/
theorem decryptToken_packed (C : CryptoPrims) (key iv tag ct : List Nat)
    (hiv : iv.length = IV_LENGTH) (htag : tag.length = TAG_LENGTH)
    (hivb : ∀ b ∈ iv, b < 256) (htagb : ∀ b ∈ tag, b < 256)
    (hctb : ∀ b ∈ ct, b < 256) :
    decryptToken C (encodeB64 (iv ++ tag ++ ct)) key =
      if (C.ghashTag (deriveKey C key) iv ct).take TAG_LENGTH = tag then
        .ok (xorBytes ct (C.keystream (deriveKey C key) iv ct.length))
      else .error .authFailed := by
  have hdec : decodeB64 (encodeB64 (iv ++ tag ++ ct)) = iv ++ tag ++ ct := by
    refine decodeB64_encodeB64 _ ?_
    intro b hb
    rcases List.mem_append.mp hb with h | h
    · rcases List.mem_append.mp h with h' | h'
      · exact hivb b h'
      · exact htagb b h'
    · exact hctb b h
  have h1 : (iv ++ tag ++ ct).take IV_LENGTH = iv := by
    rw [List.append_assoc, ← hiv]; exact List.take_left iv (tag ++ ct)
  have h2 : (iv ++ tag ++ ct).drop IV_LENGTH = tag ++ ct := by
    rw [List.append_assoc, ← hiv]; exact List.drop_left iv (tag ++ ct)
  have h3 : (tag ++ ct).take TAG_LENGTH = tag := by
    rw [← htag]; exact List.take_left tag ct
  have h4 : (iv ++ tag ++ ct).drop (IV_LENGTH + TAG_LENGTH) = ct := by
    have hl : IV_LENGTH + TAG_LENGTH = (iv ++ tag).length := by
      simp [hiv, htag, IV_LENGTH, TAG_LENGTH]
    rw [hl]
    exact List.drop_left (iv ++ tag) ct
  simp only [decryptToken]
  rw [hdec, h1, h2, h3, h4, hiv, htag]
  rw [if_neg (by decide), if_pos (by decide)]

/-- C1: for every plaintext byte string `p` and key string `k` (empty or
arbitrarily large), and every IV that `crypto.randomBytes(12)` can produce,
`decryptToken (encryptToken p k iv) k` returns `p`. -/
theorem C1_decrypt_encrypt_roundtrip (C : CryptoPrims) (p k iv : List Nat)
    (hiv : iv.length = IV_LENGTH) (hivb : ∀ b ∈ iv, b < 256)
    (hp : ∀ b ∈ p, b < 256) :
    decryptToken C (encryptToken C p k iv) k = .ok p := by
  have hksb := C.keystream_lt (deriveKey C k) iv p.length
  have hkslen := C.keystream_len (deriveKey C k) iv p.length
  have hctb := xorBytes_lt p (C.keystream (deriveKey C k) iv p.length) hp hksb
  have hctlen :
      (xorBytes p (C.keystream (deriveKey C k) iv p.length)).length = p.length := by
    rw [xorBytes_length, hkslen]; omega
  have htagb := C.ghashTag_lt (deriveKey C k) iv
    (xorBytes p (C.keystream (deriveKey C k) iv p.length))
  have htaglen := C.ghashTag_len (deriveKey C k) iv
    (xorBytes p (C.keystream (deriveKey C k) iv p.length))
  rw [encryptToken]
  rw [decryptToken_packed C k iv _ _ hiv htaglen hivb htagb hctb]
  rw [if_pos (by rw [← htaglen]; exact List.take_length _)]
  rw [hctlen]
  exact congrArg Except.ok
    (xorBytes_cancel p (C.keystream (deriveKey C k) iv p.length) (by omega))

/-- A concrete instantiation of the external-primitive interface, used to
evaluate the theorems at concrete inputs. -/
def testCrypto : CryptoPrims where
  sha256 := fun _ => List.replicate 32 0
  sha256_len := fun _ => by simp
  keystream := fun _ _ n => List.replicate n 0
  keystream_len := fun _ _ n => by simp
  keystream_lt := fun _ _ n b hb => by
    have := List.eq_of_mem_replicate hb; omega
  ghashTag := fun _ _ _ => List.replicate 16 0
  ghashTag_len := fun _ _ _ => by simp [TAG_LENGTH]
  ghashTag_lt := fun _ _ _ b hb => by
    have := List.eq_of_mem_replicate hb; omega

def tKey : List Nat := [107, 101, 121]

def tIv : List Nat := [0, 1, 2, 3, 4, 5, 6, 7, 8, 9, 10, 11]

def tPlain : List Nat := [104, 105]

/-- Witness for C1 at a concrete plaintext, key and IV. -/
theorem C1_witness :
    (tIv.length = IV_LENGTH ∧ (∀ b ∈ tIv, b < 256) ∧ (∀ b ∈ tPlain, b < 256)) ∧
    decryptToken testCrypto (encryptToken testCrypto tPlain tKey tIv) tKey =
      .ok tPlain :=
  ⟨⟨by decide, by decide, by decide⟩,
    C1_decrypt_encrypt_roundtrip testCrypto tPlain tKey tIv
      (by decide) (by decide) (by decide)⟩

/-- C4: for every plaintext and key, `encryptToken` keys the cipher with the
256-bit (32-byte) SHA-256 digest of the key string, and its output is the
base64 encoding of IV (12 bytes) ‖ 16-byte GCM auth tag ‖ ciphertext, in that
order. -/
theorem C4_output_format (C : CryptoPrims) (p k iv : List Nat)
    (hiv : iv.length = IV_LENGTH) (hivb : ∀ b ∈ iv, b < 256)
    (hp : ∀ b ∈ p, b < 256) :
    (C.sha256 k).length = 32 ∧
    encryptToken C p k iv =
      encodeB64 (iv ++
        C.ghashTag (C.sha256 k) iv
          (xorBytes p (C.keystream (C.sha256 k) iv p.length)) ++
        xorBytes p (C.keystream (C.sha256 k) iv p.length)) ∧
    decodeB64 (encryptToken C p k iv) =
      iv ++
        C.ghashTag (C.sha256 k) iv
          (xorBytes p (C.keystream (C.sha256 k) iv p.length)) ++
        xorBytes p (C.keystream (C.sha256 k) iv p.length) ∧
    iv.length = 12 ∧
    (C.ghashTag (C.sha256 k) iv
      (xorBytes p (C.keystream (C.sha256 k) iv p.length))).length = 16 ∧
    (xorBytes p (C.keystream (C.sha256 k) iv p.length)).length = p.length := by
  have hksb := C.keystream_lt (C.sha256 k) iv p.length
  have hkslen := C.keystream_len (C.sha256 k) iv p.length
  have hctb := xorBytes_lt p (C.keystream (C.sha256 k) iv p.length) hp hksb
  have htagb := C.ghashTag_lt (C.sha256 k) iv
    (xorBytes p (C.keystream (C.sha256 k) iv p.length))
  have htaglen := C.ghashTag_len (C.sha256 k) iv
    (xorBytes p (C.keystream (C.sha256 k) iv p.length))
  refine ⟨C.sha256_len k, rfl, ?_, by simpa [IV_LENGTH] using hiv, ?_, ?_⟩
  · refine decodeB64_encodeB64 _ ?_
    intro b hb
    rcases List.mem_append.mp hb with h | h
    · rcases List.mem_append.mp h with h' | h'
      · exact hivb b h'
      · exact htagb b h'
    · exact hctb b h
  · simpa [TAG_LENGTH] using htaglen
  · rw [xorBytes_length, hkslen]; omega

/-- Witness for C4 at a concrete plaintext, key and IV. -/
theorem C4_witness :
    (tIv.length = IV_LENGTH ∧ (∀ b ∈ tIv, b < 256) ∧ (∀ b ∈ tPlain, b < 256)) ∧
    decodeB64 (encryptToken testCrypto tPlain tKey tIv) =
      tIv ++
        testCrypto.ghashTag (testCrypto.sha256 tKey) tIv
          (xorBytes tPlain
            (testCrypto.keystream (testCrypto.sha256 tKey) tIv tPlain.length)) ++
        xorBytes tPlain
          (testCrypto.keystream (testCrypto.sha256 tKey) tIv tPlain.length) :=
  ⟨⟨by decide, by decide, by decide⟩,
    (C4_output_format testCrypto tPlain tKey tIv
      (by decide) (by decide) (by decide)).2.2.1⟩

/-- `decryptToken` only looks at the base64 decoding of its input. -/
theorem decryptToken_congr (C : CryptoPrims) (s t : String) (k : List Nat)
    (h : decodeB64 s = decodeB64 t) : decryptToken C s k = decryptToken C t k := by
  simp only [decryptToken, h]

/-- In-place single-character mutation of a string. -/
def mutateAt (s : String) (i : Nat) (c : Char) : String :=
  String.mk (s.data.set i c)

/-- C6 (amended): a mutation of the encrypted payload makes `decryptToken`
throw whenever the mutated payload decodes to the original IV and ciphertext
with a changed 16-byte auth tag (tamper detection via the tag comparison);
but a mutation that changes only the discarded trailing bits of the final
base64 group leaves the decoded bytes unchanged, and `decryptToken` then
succeeds and returns the original plaintext. -/
theorem C6_tamper_detection_amended :
    (∀ (C : CryptoPrims) (key iv tag ct : List Nat),
      iv.length = IV_LENGTH → tag.length = TAG_LENGTH →
      (∀ b ∈ iv, b < 256) → (∀ b ∈ tag, b < 256) → (∀ b ∈ ct, b < 256) →
      tag ≠ C.ghashTag (deriveKey C key) iv ct →
      decryptToken C (encodeB64 (iv ++ tag ++ ct)) key =
        .error .authFailed) ∧
    (∀ (C : CryptoPrims) (p k iv : List Nat) (t : String),
      iv.length = IV_LENGTH → (∀ b ∈ iv, b < 256) → (∀ b ∈ p, b < 256) →
      decodeB64 t = decodeB64 (encryptToken C p k iv) →
      decryptToken C t k = .ok p) := by
  constructor
  · intro C key iv tag ct hiv htag hivb htagb hctb hne
    rw [decryptToken_packed C key iv tag ct hiv htag hivb htagb hctb]
    rw [if_neg]
    intro heq
    apply hne
    rw [← heq, ← C.ghashTag_len (deriveKey C key) iv ct, List.take_length]
  · intro C p k iv t hiv hivb hp hdec
    rw [decryptToken_congr C t (encryptToken C p k iv) k hdec]
    exact C1_decrypt_encrypt_roundtrip C p k iv hiv hivb hp

/-- C6 counterexample: in `encryptToken [] tKey tIv` (a 28-byte payload whose
base64 form ends in two padding characters), character 37 — the final data
character, which carries four bits that the decoder discards — is 'A';
changing it to the different character 'B' produces a different string on
which `decryptToken` succeeds and returns the original plaintext instead of
throwing. -/
theorem C6_counterexample :
    (encryptToken testCrypto [] tKey tIv).data.getD 37 '?' = 'A' ∧
    mutateAt (encryptToken testCrypto [] tKey tIv) 37 'B' ≠
      encryptToken testCrypto [] tKey tIv ∧
    decryptToken testCrypto
      (mutateAt (encryptToken testCrypto [] tKey tIv) 37 'B') tKey =
      .ok [] := by
  refine ⟨by decide, by decide, ?_⟩
  rfl

/-- Witness for C6 (amended), first part: a payload whose auth-tag bytes were
replaced is rejected with an auth failure. -/
theorem C6_witness :
    decryptToken testCrypto
      (encodeB64 (tIv ++ List.replicate 16 1 ++ tPlain)) tKey =
      .error .authFailed :=
  C6_tamper_detection_amended.1 testCrypto tKey tIv (List.replicate 16 1) tPlain
    (by decide) (by decide) (by decide) (by decide) (by decide) (by decide)

/-- C10 (amended): any input whose base64 decoding is shorter than 16 bytes —
in particular the empty string, whose decoding is empty — makes `decryptToken`
throw, for every key: either the IV is empty (`createDecipheriv` rejects it)
or the truncated tag is shorter than 4 bytes (`setAuthTag` rejects it). -/
theorem C10_short_input_fails (C : CryptoPrims) (s : String) (k : List Nat)
    (h : (decodeB64 s).length < IV_LENGTH + 4) :
    ∃ e, decryptToken C s k = .error e := by
  simp only [decryptToken]
  by_cases h0 : ((decodeB64 s).take IV_LENGTH).length = 0
  · exact ⟨.invalidIV, by rw [if_pos h0]⟩
  · refine ⟨.invalidTagLength, ?_⟩
    rw [if_neg h0, if_neg]
    have hlen : (((decodeB64 s).drop IV_LENGTH).take TAG_LENGTH).length < 4 := by
      simp only [List.length_take, List.length_drop]
      simp only [IV_LENGTH] at h ⊢
      omega
    intro hmem
    simp only [allowedTagLengths, List.mem_cons, List.not_mem_nil, or_false] at hmem
    omega

/-- C10 counterexample: a 24-byte payload (shorter than 28 bytes) consisting
of a 12-byte IV and a 12-byte truncated auth tag decrypts successfully —
`setAuthTag` accepts 96-bit tags and GCM compares the recomputed tag on the
stored tag's length — so `decryptToken` returns the empty plaintext instead
of throwing. -/
theorem C10_counterexample :
    (decodeB64 (encodeB64 (tIv ++ List.replicate 12 0))).length < 28 ∧
    decryptToken testCrypto (encodeB64 (tIv ++ List.replicate 12 0)) tKey =
      .ok [] := by
  exact ⟨by decide, by rfl⟩

/-- Witness for C10 (amended) at the empty input string. -/
theorem C10_witness :
    (decodeB64 "").length < IV_LENGTH + 4 ∧
    ∃ e, decryptToken testCrypto "" tKey = .error e :=
  ⟨by decide, C10_short_input_fails testCrypto "" tKey (by decide)⟩

/-! ## Service-to-service (Bearer) authentication

The repository's `src` tree contains only the signature of
`requireServiceAuth` (`apps/api/src/middleware/service-auth.middleware.ts`);
the middleware body itself is not among the sources.  The decision procedure
below is modelled from the spec (§4.5, "Service-auth validation"), with the
`jose` JWT verification (signature against the tenant JWKS, issuer and
audience checks) abstracted as a `verify` function returning the verified
claims or `none`.
-/

/-- Claims of a verified service token. -/
structure ServiceTokenClaims where
  azp : String
  tid : String
  roles : List String
deriving DecidableEq

/-- Caller identity attached as `req.serviceClient` on success. -/
structure ServiceClient where
  clientId : String
  tenantId : String
  roles : List String
deriving DecidableEq

/-- Rejection codes of the service-auth middleware. -/
inductive ServiceAuthReject where
  | missingToken : ServiceAuthReject
  | invalidToken : ServiceAuthReject
  | clientNotAllowed : ServiceAuthReject
deriving DecidableEq

/-- Terminal states of the per-request service-auth state machine. -/
inductive ServiceAuthResult where
  | notConfigured : ServiceAuthResult
  | rejected (code : ServiceAuthReject) : ServiceAuthResult
  | authorized (client : ServiceClient) : ServiceAuthResult
deriving DecidableEq

/-- Service-auth configuration after defaulting (`SERVICE_AUTH_ENABLED`,
`SERVICE_AUTH_TENANT_ID`, `SERVICE_AUTH_AUDIENCE`,
`SERVICE_AUTH_ALLOWED_CLIENT_IDS`). -/
structure ServiceAuthCfg where
  enabled : Bool
  tenantId : Option String
  audience : Option String
  allowedClientIds : List String

/-- `pre` is an initial segment of `cs` (models `String.prototype.startsWith`,
on character lists so that concrete instances evaluate). -/
def startsWithChars : List Char → List Char → Bool
  | [], _ => true
  | _ :: _, [] => false
  | p :: ps, c :: cs => p == c && startsWithChars ps cs

/-- Models `String.prototype.startsWith`. -/
def strStartsWith (s pre : String) : Bool :=
  startsWithChars pre.data s.data

/-- Bearer-token extraction from the `Authorization` header. -/
def extractBearer (header : Option String) : Option String :=
  match header with
  | some s =>
    if strStartsWith s "Bearer " then some (String.mk (s.data.drop 7)) else none
  | none => none

/-- Modelled from the spec: the body of `requireServiceAuth` is not under
`src/`; steps 1–5 of spec §4.5 are transcribed.  `verify` abstracts
`jose.jwtVerify` against the tenant JWKS with issuer and audience checks. -/
def requireServiceAuth (cfg : ServiceAuthCfg)
    (verify : String → Option ServiceTokenClaims)
    (authHeader : Option String) : ServiceAuthResult :=
  if ¬cfg.enabled ∨ cfg.tenantId = none ∨ cfg.audience = none then
    .notConfigured
  else
    match extractBearer authHeader with
    | none => .rejected .missingToken
    | some token =>
      match verify token with
      | none => .rejected .invalidToken
      | some claims =>
        if cfg.allowedClientIds ≠ [] ∧ claims.azp ∉ cfg.allowedClientIds then
          .rejected .clientNotAllowed
        else .authorized ⟨claims.azp, claims.tid, claims.roles⟩

/-- HTTP status attached to each terminal state: the "not configured"
rejection is 503-class, distinct from the 401 unauthorized rejections. -/
def serviceAuthStatus : ServiceAuthResult → Nat
  | .notConfigured => 503
  | .rejected _ => 401
  | .authorized _ => 200

/-- C3: the service-auth state machine: disabled/misconfigured short-circuits
to a 503-class "not configured" rejection distinct from 401; a missing or
malformed Authorization header yields Rejected(401, missing_token); failed
signature/issuer/audience verification yields Rejected(401, invalid_token);
a verified token whose azp is outside a configured non-empty allowlist yields
Rejected(401, client_not_allowed); a verified token with an empty allowlist
is Authorized with a ServiceClient built from the claims. -/
theorem C3_service_auth_states (cfg : ServiceAuthCfg)
    (verify : String → Option ServiceTokenClaims) (hdr : Option String) :
    ((¬cfg.enabled ∨ cfg.tenantId = none ∨ cfg.audience = none) →
      requireServiceAuth cfg verify hdr = .notConfigured ∧
      serviceAuthStatus (requireServiceAuth cfg verify hdr) = 503 ∧
      serviceAuthStatus (requireServiceAuth cfg verify hdr) ≠ 401) ∧
    (cfg.enabled → cfg.tenantId ≠ none → cfg.audience ≠ none →
      extractBearer hdr = none →
      requireServiceAuth cfg verify hdr = .rejected .missingToken ∧
      serviceAuthStatus (requireServiceAuth cfg verify hdr) = 401) ∧
    (∀ token, cfg.enabled → cfg.tenantId ≠ none → cfg.audience ≠ none →
      extractBearer hdr = some token → verify token = none →
      requireServiceAuth cfg verify hdr = .rejected .invalidToken ∧
      serviceAuthStatus (requireServiceAuth cfg verify hdr) = 401) ∧
    (∀ token claims, cfg.enabled → cfg.tenantId ≠ none → cfg.audience ≠ none →
      extractBearer hdr = some token → verify token = some claims →
      cfg.allowedClientIds ≠ [] → claims.azp ∉ cfg.allowedClientIds →
      requireServiceAuth cfg verify hdr = .rejected .clientNotAllowed ∧
      serviceAuthStatus (requireServiceAuth cfg verify hdr) = 401) ∧
    (∀ token claims, cfg.enabled → cfg.tenantId ≠ none → cfg.audience ≠ none →
      extractBearer hdr = some token → verify token = some claims →
      cfg.allowedClientIds = [] →
      requireServiceAuth cfg verify hdr =
        .authorized ⟨claims.azp, claims.tid, claims.roles⟩) := by
  refine ⟨?_, ?_, ?_, ?_, ?_⟩
  · intro h
    have : requireServiceAuth cfg verify hdr = .notConfigured := by
      simp only [requireServiceAuth, if_pos h]
    exact ⟨this, by rw [this]; rfl, by rw [this]; exact by decide⟩
  · intro he ht ha hb
    have hcond : ¬(¬cfg.enabled ∨ cfg.tenantId = none ∨ cfg.audience = none) := by
      simp [he, ht, ha]
    have : requireServiceAuth cfg verify hdr = .rejected .missingToken := by
      simp only [requireServiceAuth, if_neg hcond, hb]
    exact ⟨this, by rw [this]; rfl⟩
  · intro token he ht ha hb hv
    have hcond : ¬(¬cfg.enabled ∨ cfg.tenantId = none ∨ cfg.audience = none) := by
      simp [he, ht, ha]
    have : requireServiceAuth cfg verify hdr = .rejected .invalidToken := by
      simp only [requireServiceAuth, if_neg hcond, hb, hv]
    exact ⟨this, by rw [this]; rfl⟩
  · intro token claims he ht ha hb hv hne hnotin
    have hcond : ¬(¬cfg.enabled ∨ cfg.tenantId = none ∨ cfg.audience = none) := by
      simp [he, ht, ha]
    have : requireServiceAuth cfg verify hdr = .rejected .clientNotAllowed := by
      simp only [requireServiceAuth, if_neg hcond, hb, hv]
      rw [if_pos ⟨hne, hnotin⟩]
    exact ⟨this, by rw [this]; rfl⟩
  · intro token claims he ht ha hb hv hempty
    have hcond : ¬(¬cfg.enabled ∨ cfg.tenantId = none ∨ cfg.audience = none) := by
      simp [he, ht, ha]
    simp only [requireServiceAuth, if_neg hcond, hb, hv]
    rw [if_neg]
    simp [hempty]

/-- Witness for C3: the five states at concrete configurations, headers and
verifiers. -/
theorem C3_witness :
    requireServiceAuth ⟨false, none, none, []⟩ (fun _ => none) none =
      .notConfigured ∧
    requireServiceAuth ⟨true, some "t", some "aud", []⟩ (fun _ => none) none =
      .rejected .missingToken ∧
    requireServiceAuth ⟨true, some "t", some "aud", []⟩ (fun _ => none)
      (some "Bearer x") = .rejected .invalidToken ∧
    requireServiceAuth ⟨true, some "t", some "aud", ["allowed"]⟩
      (fun _ => some ⟨"other", "t", []⟩) (some "Bearer x") =
      .rejected .clientNotAllowed ∧
    requireServiceAuth ⟨true, some "t", some "aud", []⟩
      (fun _ => some ⟨"c", "t", []⟩) (some "Bearer x") =
      .authorized ⟨"c", "t", []⟩ :=
  ⟨((C3_service_auth_states ⟨false, none, none, []⟩ (fun _ => none) none).1
      (by simp)).1,
   ((C3_service_auth_states ⟨true, some "t", some "aud", []⟩ (fun _ => none)
      none).2.1 (by simp) (by simp) (by simp) (by decide)).1,
   ((C3_service_auth_states ⟨true, some "t", some "aud", []⟩ (fun _ => none)
      (some "Bearer x")).2.2.1 "x" (by simp) (by simp) (by simp)
      (by decide) rfl).1,
   ((C3_service_auth_states ⟨true, some "t", some "aud", ["allowed"]⟩
      (fun _ => some ⟨"other", "t", []⟩) (some "Bearer x")).2.2.2.1 "x"
      ⟨"other", "t", []⟩ (by simp) (by simp) (by simp) (by decide) rfl
      (by simp) (by simp)).1,
   (C3_service_auth_states ⟨true, some "t", some "aud", []⟩
      (fun _ => some ⟨"c", "t", []⟩) (some "Bearer x")).2.2.2.2 "x"
      ⟨"c", "t", []⟩ (by simp) (by simp) (by simp) (by decide) rfl rfl⟩

/-! ## Request pipeline of `createApp` (`apps/api/src/app.ts`)

The middleware chain is modelled as the ordered list of registrations
performed by `createApp`, in source order.  Express dispatches a request
through this list: an entry whose mount path does not match is skipped, and
the first entry that writes a response terminates the request; entries after
it never run.  External middleware whose bodies are not part of the
repository (helmet, cors, pino-http, body parsers, hpp, express-session,
csrf, the rate limiters) are modelled by their interface: pass-through, or
respond/pass depending on an abstract per-request outcome.  The
`/api/v1/public` entry composes the service rate limiter, the
`requireServiceAuth` middleware modelled above and the two routes of
`public.routes.ts` (`GET /health`, `GET /info`), which always respond.
-/

/-- The middleware and routes registered by `createApp`, in source order. -/
inductive Mw where
  | helmet | cacheControl | hostValidation | cors | swagger
  | rateLimit | httpLogger | bodyJson | bodyUrlencoded | hpp
  | contentTypeCheck | publicApi | sessionMw | csrf
  | csrfTokenRoute | healthRoute | infoRoute | authRoutes
  | staticFiles | spaFallback | adminUsers | notFound | errorHandler
deriving DecidableEq

/-- Environment facts fixed when `createApp` runs: whether `ALLOWED_HOSTS` is
set, whether `NODE_ENV === 'production'`, and whether `setupSwagger` managed
to load the OpenAPI spec. -/
structure AppCfg where
  allowedHostsSet : Bool
  production : Bool
  swaggerOk : Bool

/-- An inbound HTTP request. -/
structure SReq where
  path : String
  method : String
  authHeader : Option String

/-- Outcomes of the external middleware for one request: host whitelisted,
rate limits not exceeded, acceptable Content-Type, CSRF check passing, and
the service-auth configuration/verifier. -/
structure ExtEnv where
  hostOk : Bool
  rateOk : Bool
  serviceRateOk : Bool
  contentTypeOk : Bool
  csrfOk : Bool
  saCfg : ServiceAuthCfg
  verify : String → Option ServiceTokenClaims

/-- What one pipeline entry does with a request: mount path does not match
(`skip`), runs and calls `next()` (`pass`), or runs and writes the response
(`respond`). -/
inductive MwStep where
  | skip | pass | respond
deriving DecidableEq

/-- Registration order in `createApp` (`app.ts`): helmet, the `/api/`
cache-control header middleware, the optional Host-header whitelist, cors,
the optional Swagger mounts (non-production only), the general rate limiter,
pino-http, the body parsers, hpp, the `/api/` Content-Type check, then the
`/api/v1/public` mount (service rate limit + `requireServiceAuth` + public
routes), then `express-session`, then CSRF, then the remaining routes. -/
def pipeline (cfg : AppCfg) : List Mw :=
  [.helmet, .cacheControl] ++
  (if cfg.allowedHostsSet then [.hostValidation] else []) ++
  [.cors] ++
  (if !cfg.production && cfg.swaggerOk then [.swagger] else []) ++
  [.rateLimit, .httpLogger, .bodyJson, .bodyUrlencoded, .hpp,
   .contentTypeCheck, .publicApi, .sessionMw, .csrf,
   .csrfTokenRoute, .healthRoute, .infoRoute, .authRoutes] ++
  (if cfg.production then [.staticFiles, .spaFallback] else []) ++
  [.adminUsers, .notFound, .errorHandler]

/-- Behaviour of each registered entry on a request. -/
def mwStep (_cfg : AppCfg) (env : ExtEnv) (req : SReq) : Mw → MwStep
  | .helmet => .pass
  | .cacheControl =>
    if strStartsWith req.path "/api/" then .pass else .skip
  | .hostValidation => if env.hostOk then .pass else .respond
  | .cors => .pass
  | .swagger =>
    if strStartsWith req.path "/api-docs" ∨ req.path = "/api/v1/openapi.json"
    then .respond else .pass
  | .rateLimit => if env.rateOk then .pass else .respond
  | .httpLogger => .pass
  | .bodyJson => .pass
  | .bodyUrlencoded => .pass
  | .hpp => .pass
  | .contentTypeCheck =>
    if strStartsWith req.path "/api/" then
      if (req.method = "POST" ∨ req.method = "PUT" ∨ req.method = "PATCH") ∧
          ¬env.contentTypeOk
      then .respond else .pass
    else .skip
  | .publicApi =>
    if strStartsWith req.path "/api/v1/public" then
      if ¬env.serviceRateOk then .respond
      else
        match requireServiceAuth env.saCfg env.verify req.authHeader with
        | .authorized _ =>
          if req.method = "GET" ∧
              (req.path = "/api/v1/public/health" ∨
                req.path = "/api/v1/public/info")
          then .respond
          else .pass
        | _ => .respond
    else .skip
  | .sessionMw => .pass
  | .csrf => if env.csrfOk then .pass else .respond
  | .csrfTokenRoute =>
    if req.method = "GET" ∧ req.path = "/api/v1/csrf-token"
    then .respond else .skip
  | .healthRoute =>
    if req.method = "GET" ∧ req.path = "/api/v1/health"
    then .respond else .skip
  | .infoRoute =>
    if req.method = "GET" ∧ req.path = "/api/v1/info"
    then .respond else .skip
  | .authRoutes =>
    if strStartsWith req.path "/api/v1/auth" then .respond else .skip
  | .staticFiles => .pass
  | .spaFallback =>
    if strStartsWith req.path "/api/" then .pass else .respond
  | .adminUsers =>
    if req.method = "GET" ∧ req.path = "/api/v1/admin/users"
    then .respond else .skip
  | .notFound => .respond
  | .errorHandler => .respond

/-- Walk the pipeline: returns the entries that actually ran (in order) and
whether a response was written. -/
def runPipe (cfg : AppCfg) (env : ExtEnv) (req : SReq) :
    List Mw → List Mw → List Mw × Bool
  | [], acc => (acc.reverse, false)
  | m :: rest, acc =>
    match mwStep cfg env req m with
    | .skip => runPipe cfg env req rest acc
    | .pass => runPipe cfg env req rest (m :: acc)
    | .respond => ((m :: acc).reverse, true)

/-- Dispatch a request through the whole `createApp` pipeline. -/
def appRun (cfg : AppCfg) (env : ExtEnv) (req : SReq) : List Mw × Bool :=
  runPipe cfg env req (pipeline cfg) []

theorem runPipe_stop (cfg : AppCfg) (env : ExtEnv) (req : SReq) (x m : Mw)
    (hm : mwStep cfg env req m = .respond) :
    ∀ (l₁ l₂ acc : List Mw), x ∉ l₁ → x ∉ acc → x ≠ m →
      x ∉ (runPipe cfg env req (l₁ ++ m :: l₂) acc).1
  | [], l₂, acc, _, hacc, hxm => by
    simp only [List.nil_append, runPipe, hm]
    simp [List.mem_reverse, hacc, hxm]
  | a :: l₁, l₂, acc, h1, hacc, hxm => by
    have hxa : x ≠ a := fun h => h1 (h ▸ List.mem_cons_self a l₁)
    have h1' : x ∉ l₁ := fun h => h1 (List.mem_cons_of_mem a h)
    rcases hstep : mwStep cfg env req a with _ | _ | _
    · simp only [List.cons_append, runPipe, hstep]
      exact runPipe_stop cfg env req x m hm l₁ l₂ acc h1' hacc hxm
    · simp only [List.cons_append, runPipe, hstep]
      refine runPipe_stop cfg env req x m hm l₁ l₂ (a :: acc) h1' ?_ hxm
      simp [hacc, hxa]
    · simp only [List.cons_append, runPipe, hstep]
      simp [List.mem_reverse, hacc, hxa]

theorem runPipe_skip (cfg : AppCfg) (env : ExtEnv) (req : SReq) (x : Mw)
    (hx : mwStep cfg env req x = .skip) :
    ∀ (l acc : List Mw), x ∉ acc → x ∉ (runPipe cfg env req l acc).1
  | [], acc, hacc => by
    simp only [runPipe]
    simpa using hacc
  | a :: l, acc, hacc => by
    by_cases hax : a = x
    · subst hax
      simp only [runPipe, hx]
      exact runPipe_skip cfg env req a hx l acc hacc
    · have hxa : ¬x = a := fun h => hax h.symm
      rcases hstep : mwStep cfg env req a with _ | _ | _
      · simp only [runPipe, hstep]
        exact runPipe_skip cfg env req x hx l acc hacc
      · simp only [runPipe, hstep]
        refine runPipe_skip cfg env req x hx l (a :: acc) ?_
        simp [hacc, hxa]
      · simp only [runPipe, hstep]
        simp [List.mem_reverse, hacc, hxa]

/-- The pipeline splits at the `/api/v1/public` mount, with neither the
session middleware nor the CSRF middleware before it. -/
theorem pipeline_decomp (cfg : AppCfg) :
    ∃ pre post, pipeline cfg = pre ++ .publicApi :: post ∧
      Mw.sessionMw ∉ pre ∧ Mw.csrf ∉ pre := by
  obtain ⟨hA, hP, hS⟩ := cfg
  cases hA <;> cases hP <;> cases hS
  · exact ⟨[.helmet, .cacheControl, .cors, .rateLimit, .httpLogger, .bodyJson,
      .bodyUrlencoded, .hpp, .contentTypeCheck],
      [.sessionMw, .csrf, .csrfTokenRoute, .healthRoute, .infoRoute,
       .authRoutes, .adminUsers, .notFound, .errorHandler],
      by decide, by decide, by decide⟩
  · exact ⟨[.helmet, .cacheControl, .cors, .swagger, .rateLimit, .httpLogger,
      .bodyJson, .bodyUrlencoded, .hpp, .contentTypeCheck],
      [.sessionMw, .csrf, .csrfTokenRoute, .healthRoute, .infoRoute,
       .authRoutes, .adminUsers, .notFound, .errorHandler],
      by decide, by decide, by decide⟩
  · exact ⟨[.helmet, .cacheControl, .cors, .rateLimit, .httpLogger, .bodyJson,
      .bodyUrlencoded, .hpp, .contentTypeCheck],
      [.sessionMw, .csrf, .csrfTokenRoute, .healthRoute, .infoRoute,
       .authRoutes, .staticFiles, .spaFallback, .adminUsers, .notFound,
       .errorHandler],
      by decide, by decide, by decide⟩
  · exact ⟨[.helmet, .cacheControl, .cors, .rateLimit, .httpLogger, .bodyJson,
      .bodyUrlencoded, .hpp, .contentTypeCheck],
      [.sessionMw, .csrf, .csrfTokenRoute, .healthRoute, .infoRoute,
       .authRoutes, .staticFiles, .spaFallback, .adminUsers, .notFound,
       .errorHandler],
      by decide, by decide, by decide⟩
  · exact ⟨[.helmet, .cacheControl, .hostValidation, .cors, .rateLimit,
      .httpLogger, .bodyJson, .bodyUrlencoded, .hpp, .contentTypeCheck],
      [.sessionMw, .csrf, .csrfTokenRoute, .healthRoute, .infoRoute,
       .authRoutes, .adminUsers, .notFound, .errorHandler],
      by decide, by decide, by decide⟩
  · exact ⟨[.helmet, .cacheControl, .hostValidation, .cors, .swagger,
      .rateLimit, .httpLogger, .bodyJson, .bodyUrlencoded, .hpp,
      .contentTypeCheck],
      [.sessionMw, .csrf, .csrfTokenRoute, .healthRoute, .infoRoute,
       .authRoutes, .adminUsers, .notFound, .errorHandler],
      by decide, by decide, by decide⟩
  · exact ⟨[.helmet, .cacheControl, .hostValidation, .cors, .rateLimit,
      .httpLogger, .bodyJson, .bodyUrlencoded, .hpp, .contentTypeCheck],
      [.sessionMw, .csrf, .csrfTokenRoute, .healthRoute, .infoRoute,
       .authRoutes, .staticFiles, .spaFallback, .adminUsers, .notFound,
       .errorHandler],
      by decide, by decide, by decide⟩
  · exact ⟨[.helmet, .cacheControl, .hostValidation, .cors, .rateLimit,
      .httpLogger, .bodyJson, .bodyUrlencoded, .hpp, .contentTypeCheck],
      [.sessionMw, .csrf, .csrfTokenRoute, .healthRoute, .infoRoute,
       .authRoutes, .staticFiles, .spaFallback, .adminUsers, .notFound,
       .errorHandler],
      by decide, by decide, by decide⟩

/-- C2: the `/api/v1/public` service routes are registered before the session
and CSRF middleware; every request to the Bearer-path routes is terminated at
the public mount (by the service rate limiter, by `requireServiceAuth`, or by
the route handler), so the session and CSRF middleware never run for it; and
requests outside `/api/v1/public` never reach the service-auth middleware —
the two paths never merge. -/
theorem C2_public_before_session (cfg : AppCfg) (env : ExtEnv) (req : SReq) :
    ((pipeline cfg).indexOf Mw.publicApi < (pipeline cfg).indexOf Mw.sessionMw ∧
      (pipeline cfg).indexOf Mw.publicApi < (pipeline cfg).indexOf Mw.csrf) ∧
    (req.method = "GET" →
      (req.path = "/api/v1/public/health" ∨ req.path = "/api/v1/public/info") →
      Mw.sessionMw ∉ (appRun cfg env req).1 ∧
        Mw.csrf ∉ (appRun cfg env req).1) ∧
    (strStartsWith req.path "/api/v1/public" = false →
      Mw.publicApi ∉ (appRun cfg env req).1) := by
  refine ⟨?_, ?_, ?_⟩
  · obtain ⟨hA, hP, hS⟩ := cfg
    cases hA <;> cases hP <;> cases hS <;> exact ⟨by decide, by decide⟩
  · intro hm hp
    have hsw : strStartsWith req.path "/api/v1/public" = true := by
      rcases hp with hp | hp <;> rw [hp] <;> decide
    have hstep : mwStep cfg env req Mw.publicApi = MwStep.respond := by
      simp only [mwStep, hsw]
      rw [if_pos trivial]
      by_cases hr : env.serviceRateOk
      · rw [if_neg (by simp [hr])]
        rcases hra : requireServiceAuth env.saCfg env.verify req.authHeader
          with _ | _ | c
        · rfl
        · rfl
        · rw [if_pos ⟨hm, hp⟩]
      · rw [if_pos (by simp [hr])]
    obtain ⟨pre, post, hpipe, hs, hc⟩ := pipeline_decomp cfg
    constructor
    · simp only [appRun, hpipe]
      exact runPipe_stop cfg env req Mw.sessionMw Mw.publicApi hstep pre post
        [] hs (by simp) (by decide)
    · simp only [appRun, hpipe]
      exact runPipe_stop cfg env req Mw.csrf Mw.publicApi hstep pre post
        [] hc (by simp) (by decide)
  · intro h
    have hskip : mwStep cfg env req Mw.publicApi = MwStep.skip := by
      simp only [mwStep, h]
      rw [if_neg (by simp)]
    simp only [appRun]
    exact runPipe_skip cfg env req Mw.publicApi hskip (pipeline cfg) []
      (by simp)

def pipeCfg : AppCfg := ⟨false, false, false⟩

def pipeEnv : ExtEnv :=
  ⟨true, true, true, true, true, ⟨false, none, none, []⟩, fun _ => none⟩

def pipeReq : SReq := ⟨"/api/v1/public/health", "GET", none⟩

/-- Witness for C2: a Bearer-path request dispatched through the concrete
pipeline never runs the session or CSRF middleware. -/
theorem C2_witness :
    Mw.sessionMw ∉ (appRun pipeCfg pipeEnv pipeReq).1 ∧
    Mw.csrf ∉ (appRun pipeCfg pipeEnv pipeReq).1 :=
  (C2_public_before_session pipeCfg pipeEnv pipeReq).2.1 rfl (Or.inl rfl)

/-! ## Mock auth driver

`packages/auth/src/drivers/mock.driver.ts` is not among the sources (only the
`BaseAuthDriver` contract and the documentation are), so the canned user list
and the callback lookup are modelled from the spec (§4.2) and
`docs/AUTH-SETUP.md`: exactly three users selected by index 0/1/2, with role
sets admin+developer, admin and user; out-of-range or unparsable selectors
fail with `InvalidSelectorError`.  The `AuthUser` shape comes from
`base.driver.ts` (the open `attributes` claims bag is omitted; no claim
concerns it). -/

/-- `AuthUser` from `base.driver.ts` (`id`, `email`, `name`, `roles`). -/
structure AuthUser where
  id : String
  email : String
  name : String
  roles : List String
deriving DecidableEq

/-- Modelled from the spec: mock user 0, "Developer" (admin + developer
roles); id/email/name are representative, only the count and role sets are
specified. -/
def mockUser0 : AuthUser :=
  ⟨"0", "developer@gov.ab.ca", "Developer User", ["admin", "developer"]⟩

/-- Modelled from the spec: mock user 1, "Administrator" (admin role). -/
def mockUser1 : AuthUser :=
  ⟨"1", "admin@gov.ab.ca", "Administrator User", ["admin"]⟩

/-- Modelled from the spec: mock user 2, "Standard User" (user role). -/
def mockUser2 : AuthUser :=
  ⟨"2", "user@gov.ab.ca", "Standard User", ["user"]⟩

/-- Modelled from the spec: the fixed list of exactly three canned users. -/
def mockUsers : List AuthUser := [mockUser0, mockUser1, mockUser2]

inductive MockDriverError where
  | invalidSelector : MockDriverError
deriving DecidableEq

/-- Modelled from the spec: `MockAuthDriver.callback` looks up the selector
(`?user=` query parameter, `none` when absent/unparsable) in the canned list
and fails with `InvalidSelectorError` when it is out of range. -/
def mockCallback (selector : Option Nat) : Except MockDriverError AuthUser :=
  match selector with
  | some i =>
    match mockUsers[i]? with
    | some u => .ok u
    | none => .error .invalidSelector
  | none => .error .invalidSelector

/-- C7: the mock driver holds exactly three canned users with role sets
admin+developer, admin and user, returned by `callback` for selectors 0, 1
and 2 respectively; every other selector fails with `InvalidSelectorError`. -/
theorem C7_mock_users (n : Nat) :
    mockUsers.length = 3 ∧
    (mockCallback (some 0) = .ok mockUser0 ∧
      mockUser0.roles = ["admin", "developer"]) ∧
    (mockCallback (some 1) = .ok mockUser1 ∧ mockUser1.roles = ["admin"]) ∧
    (mockCallback (some 2) = .ok mockUser2 ∧ mockUser2.roles = ["user"]) ∧
    (3 ≤ n → mockCallback (some n) = .error .invalidSelector) ∧
    mockCallback none = .error .invalidSelector := by
  refine ⟨rfl, ⟨rfl, rfl⟩, ⟨rfl, rfl⟩, ⟨rfl, rfl⟩, ?_, rfl⟩
  intro hn
  have hnone : mockUsers[n]? = none := by
    apply List.getElem?_eq_none
    simpa [mockUsers] using hn
  simp [mockCallback, hnone]

/-- Witness for C7 at the out-of-range selector 3. -/
theorem C7_witness :
    mockCallback (some 3) = .error .invalidSelector :=
  (C7_mock_users 3).2.2.2.2.1 (by omega)

/-! ## Driver selection at startup

The `AUTH_DRIVER` value is validated by the Zod schema
`authDriverSchema = z.enum(['mock', 'entra-id']).default('mock')` in the API
config schema (sources, `api.config.schema.ts`): an absent value defaults to
`'mock'`, any value other than the two enum members is rejected at config
parse time, i.e. at startup.  The switch mapping the validated value to a
driver class lives in `apps/api/src/services/auth.service.ts`, which is not
among the sources; it is modelled from the spec (§4.4). -/

inductive AuthDriverKind where
  | mock | entraId
deriving DecidableEq

/-- Startup configuration failure (Zod rejection / `ConfigurationError`). -/
inductive ConfigError where
  | configurationError : ConfigError
deriving DecidableEq

/-- `authDriverSchema` from `api.config.schema.ts`:
`z.enum(['mock', 'entra-id']).default('mock')`. -/
def authDriverSchemaParse (v : Option String) :
    Except ConfigError AuthDriverKind :=
  match v with
  | none => .ok .mock
  | some "mock" => .ok .mock
  | some "entra-id" => .ok .entraId
  | some _ => .error .configurationError

/-- The two driver implementations. -/
inductive DriverImpl where
  | mockAuthDriver | entraIdAuthDriver
deriving DecidableEq

/-- Modelled from the spec: the `auth.service.ts` switch selecting the active
driver once at startup from the validated `AUTH_DRIVER` value. -/
def selectDriver : AuthDriverKind → DriverImpl
  | .mock => .mockAuthDriver
  | .entraId => .entraIdAuthDriver

/-- Startup driver resolution: validate `AUTH_DRIVER`, then switch. -/
def resolveDriverAtStartup (v : Option String) : Except ConfigError DriverImpl :=
  (authDriverSchemaParse v).map selectDriver

/-- C8: configuration value "mock" resolves to the mock driver, "entra-id"
to the Entra ID driver, and every other value is rejected with a
configuration error at startup. -/
theorem C8_driver_selection (s : String) :
    resolveDriverAtStartup (some "mock") = .ok .mockAuthDriver ∧
    resolveDriverAtStartup (some "entra-id") = .ok .entraIdAuthDriver ∧
    (s ≠ "mock" → s ≠ "entra-id" →
      resolveDriverAtStartup (some s) = .error .configurationError) := by
  refine ⟨rfl, rfl, ?_⟩
  intro h1 h2
  unfold resolveDriverAtStartup authDriverSchemaParse
  split <;> simp_all [Except.map]

/-- Witness for C8 at the unrecognized value "ldap". -/
theorem C8_witness :
    resolveDriverAtStartup (some "ldap") = .error .configurationError :=
  (C8_driver_selection "ldap").2.2 (by decide) (by decide)

/-! ## Session-secret resolution in `createApp`

Translation of the `secret` initializer of the session middleware
(`app.ts` lines 189–202): if `SESSION_SECRET` is truthy it is pushed first;
otherwise, in production an error is thrown, and outside production the fixed
insecure fallback string is pushed silently; a truthy
`SESSION_SECRET_PREVIOUS` is appended for rotation.  JavaScript truthiness of
an env var: set and non-empty. -/

/-- JS truthiness of an optional env string (`undefined` and `""` falsy). -/
def envTruthy : Option String → Bool
  | none => false
  | some s => !s.data.isEmpty

/-- The fixed insecure fallback secret from `app.ts`. -/
def DEV_FALLBACK_SECRET : String := "insecure-dev-fallback-replace-me"

/-- The rotation tail: `SESSION_SECRET_PREVIOUS` when truthy. -/
def prevSecrets (prev : Option String) : List String :=
  if envTruthy prev then [prev.getD ""] else []

/-- The `secret` initializer of the session middleware in `createApp`. -/
def sessionSecrets (secret prev nodeEnv : Option String) :
    Except String (List String) :=
  if envTruthy secret then .ok (secret.getD "" :: prevSecrets prev)
  else if nodeEnv = some "production" then
    .error "SESSION_SECRET environment variable is required in production"
  else .ok (DEV_FALLBACK_SECRET :: prevSecrets prev)

/-- C9: with `SESSION_SECRET` unset, `createApp` outside production silently
uses the fixed insecure fallback as the first signing secret, and in
production throws instead; with `SESSION_SECRET` set, it is the first signing
secret. -/
theorem C9_session_secret_fallback (secret prev nodeEnv : Option String) :
    (envTruthy secret = false → nodeEnv ≠ some "production" →
      sessionSecrets secret prev nodeEnv =
        .ok (DEV_FALLBACK_SECRET :: prevSecrets prev)) ∧
    (envTruthy secret = false → nodeEnv = some "production" →
      sessionSecrets secret prev nodeEnv =
        .error "SESSION_SECRET environment variable is required in production") ∧
    (∀ s, secret = some s → envTruthy secret = true →
      sessionSecrets secret prev nodeEnv = .ok (s :: prevSecrets prev)) := by
  refine ⟨?_, ?_, ?_⟩
  · intro hf hprod
    rw [sessionSecrets, if_neg (by simp [hf]), if_neg hprod]
  · intro hf hprod
    rw [sessionSecrets, if_neg (by simp [hf]), if_pos hprod]
  · intro s hs ht
    rw [sessionSecrets, if_pos ht, hs]
    rfl

/-- Witness for C9: unset secret outside production falls back; unset secret
in production throws; set secret comes first. -/
theorem C9_witness :
    sessionSecrets none none none =
      .ok (DEV_FALLBACK_SECRET :: prevSecrets none) ∧
    sessionSecrets none none (some "production") =
      .error "SESSION_SECRET environment variable is required in production" ∧
    sessionSecrets (some "s3cret") none none =
      .ok ("s3cret" :: prevSecrets none) :=
  ⟨(C9_session_secret_fallback none none none).1 rfl (by decide),
   (C9_session_secret_fallback none none (some "production")).2.1 rfl rfl,
   (C9_session_secret_fallback (some "s3cret") none none).2.2 "s3cret" rfl
     (by decide)⟩
